import Mathlib

/-!
Shallow embedding of the mcp-gemini request lifecycle and resilience layer.

The definitions below are translated from the TypeScript sources:
  - types.ts        (models, thinking levels, MIME table, validation)
  - retry.ts        (withRetry, withTimeout, isRetryableError)
  - gemini-text.ts  (GeminiTextProvider.generate and helpers)
  - gemini-image.ts (GeminiImageProvider.generate and helpers)
  - gemini-deep-research.ts (pollForCompletion)
  - index.ts        (tool dispatcher branches)

Conventions of the embedding:
  - JavaScript promise rejection / thrown Error is `Except String`, carrying
    the error message.
  - Effects are made explicit: each translated operation returns, next to its
    result, a record of the observable side effects it performed (whether the
    vendor was called, which files were read, which file-system writes were
    issued).
  - The vendor API is a parameter: a function from the assembled request to
    the outcome of the (already retried and timeout-wrapped) call.
  - JavaScript string built-ins (includes, toLowerCase, trim, startsWith) are
    modelled character-wise on `List Char` so that they reduce in the kernel.
  - Millisecond quantities and token counts are natural numbers; every delay
    constant in the repository is an integral number of milliseconds.
-/

namespace McpGemini

/-! ## Character-level models of the JavaScript string built-ins -/

/-- Substring test, the model of JavaScript `hay.includes(needle)`. -/
def containsSub : List Char → List Char → Bool
  | hay, needle =>
    match hay with
    | [] => needle.isEmpty
    | _ :: t => needle.isPrefixOf hay || containsSub t needle

/-- `s.includes(sub)` on strings. -/
def strContains (s sub : String) : Bool :=
  containsSub s.data sub.data

/-- `s.startsWith(pre)` on strings. -/
def strStartsWith (s pre : String) : Bool :=
  pre.data.isPrefixOf s.data

/-- Model of JavaScript `s.toLowerCase()` (character-wise lowering). -/
def jsToLower (s : String) : String :=
  ⟨s.data.map Char.toLower⟩

/-- White space recognised by JavaScript `trim` (the ASCII part). -/
def isJsSpace (c : Char) : Bool :=
  c = ' ' || c = '\t' || c = '\n' || c = '\r' || c = '\x0b' || c = '\x0c'

/-- Model of JavaScript `s.trim()`. -/
def jsTrim (s : String) : String :=
  ⟨((s.data.dropWhile isJsSpace).reverse.dropWhile isJsSpace).reverse⟩

/-! ## types.ts : models, thinking levels, validation -/

/-- The two supported text models (types.ts SUPPORTED_TEXT_MODELS). -/
inductive SupportedTextModel
  | geminiPro
  | geminiFlash
deriving DecidableEq

/-- The user-facing model identifier strings. -/
def SupportedTextModel.str : SupportedTextModel → String
  | .geminiPro => "gemini-3-pro"
  | .geminiFlash => "gemini-3-flash"

/-- The four thinking levels (types.ts ThinkingLevelOption). -/
inductive ThinkingLevelOption
  | minimal
  | low
  | medium
  | high
deriving DecidableEq

/-- The user-facing thinking-level strings. -/
def ThinkingLevelOption.str : ThinkingLevelOption → String
  | .minimal => "minimal"
  | .low => "low"
  | .medium => "medium"
  | .high => "high"

/-- types.ts MODEL_THINKING_LEVELS: pro only low/high, flash all four. -/
def MODEL_THINKING_LEVELS : SupportedTextModel → List ThinkingLevelOption
  | .geminiPro => [.low, .high]
  | .geminiFlash => [.minimal, .low, .medium, .high]

/-- types.ts DEFAULT_TEXT_MODEL. -/
def DEFAULT_TEXT_MODEL : SupportedTextModel := .geminiPro

/-- types.ts validateThinkingLevel: an error message when the level is not in
the capability set of the model, `none` when it is. -/
def validateThinkingLevel (model : SupportedTextModel) (level : ThinkingLevelOption) :
    Option String :=
  let supportedLevels := MODEL_THINKING_LEVELS model
  if ¬ supportedLevels.contains level then
    some (model.str ++ " only supports thinking levels: " ++
      String.intercalate ", " (supportedLevels.map ThinkingLevelOption.str) ++
      ". Got: " ++ level.str)
  else
    none

/-- types.ts SUPPORTED_MIME_TYPES, in source insertion order. -/
def SUPPORTED_MIME_TYPES : List (String × String) :=
  [(".jpg", "image/jpeg"), (".jpeg", "image/jpeg"), (".png", "image/png"),
   (".webp", "image/webp"), (".heic", "image/heic"), (".heif", "image/heif"),
   (".wav", "audio/wav"), (".mp3", "audio/mp3"), (".aiff", "audio/aiff"),
   (".aif", "audio/aiff"), (".aac", "audio/aac"), (".ogg", "audio/ogg"),
   (".flac", "audio/flac"),
   (".mp4", "video/mp4"), (".mpeg", "video/mpeg"), (".mpg", "video/mpg"),
   (".mov", "video/mov"), (".avi", "video/avi"), (".flv", "video/x-flv"),
   (".webm", "video/webm"), (".wmv", "video/wmv"), (".3gp", "video/3gpp"),
   (".3gpp", "video/3gpp"),
   (".pdf", "application/pdf"),
   (".txt", "text/plain"), (".md", "text/markdown"), (".html", "text/html"),
   (".htm", "text/html"), (".xml", "text/xml"), (".css", "text/css"),
   (".js", "text/javascript"), (".ts", "text/typescript"),
   (".json", "application/json"), (".csv", "text/csv"), (".rtf", "application/rtf")]

/-! ## retry.ts -/

/-- retry.ts RetryOptions, with the DEFAULT_OPTIONS values as defaults. -/
structure RetryOptions where
  maxRetries : Nat := 3
  initialDelayMs : Nat := 1000
  maxDelayMs : Nat := 30000
  backoffMultiplier : Nat := 2
  retryableErrors : List String :=
    ["RATE_LIMIT", "ECONNRESET", "ETIMEDOUT", "ENOTFOUND", "429", "503", "502"]

/-- retry.ts isRetryableError: substring match of any pattern, either verbatim
or lower-cased on both sides. -/
def isRetryableError (message : String) (retryablePatterns : List String) : Bool :=
  retryablePatterns.any fun pattern =>
    strContains message pattern || strContains (jsToLower message) (jsToLower pattern)

/-- Observable outcome of a `withRetry` run: the propagated result, the list of
back-off sleeps performed (in order), and how many times the operation ran. -/
structure RetryTrace (A : Type) where
  result : Except String A
  sleeps : List Nat
  calls : Nat

/-- The loop body of retry.ts withRetry. The operation is modelled as a
function from the attempt number (1-based) to its outcome. `retriesLeft` is
the number of retries still allowed after the current attempt, so the loop
guard `attempt <= maxRetries` of the source is `retriesLeft ≠ 0` here. -/
def retryLoop {A : Type} (fn : Nat → Except String A) (retryable : String → Bool)
    (backoffMultiplier maxDelayMs : Nat) :
    Nat → Nat → Nat → RetryTrace A
  | 0, attempt, _ =>
    match fn attempt with
    | .ok a => ⟨.ok a, [], 1⟩
    | .error e => ⟨.error e, [], 1⟩
  | left + 1, attempt, delay =>
    match fn attempt with
    | .ok a => ⟨.ok a, [], 1⟩
    | .error e =>
      if retryable e then
        let rest := retryLoop fn retryable backoffMultiplier maxDelayMs
          left (attempt + 1) (min (delay * backoffMultiplier) maxDelayMs)
        ⟨rest.result, delay :: rest.sleeps, rest.calls + 1⟩
      else ⟨.error e, [], 1⟩

/-- retry.ts withRetry. -/
def withRetry {A : Type} (fn : Nat → Except String A) (options : RetryOptions) :
    RetryTrace A :=
  retryLoop fn (fun m => isRetryableError m options.retryableErrors)
    options.backoffMultiplier options.maxDelayMs
    options.maxRetries 1 options.initialDelayMs

/-- The back-off delay before the (k+1)-th retry: starts at `d0`, updated as
`min (delay * backoffMultiplier) maxDelayMs` after each retry. -/
def backoffDelay (backoffMultiplier maxDelayMs d0 : Nat) : Nat → Nat
  | 0 => d0
  | k + 1 => min (backoffDelay backoffMultiplier maxDelayMs d0 k * backoffMultiplier) maxDelayMs

/-- retry.ts withTimeout: the message of the rejection raised by the timer. -/
def timeoutMessage (timeoutMs : Nat) : String :=
  "TIMEOUT: Operation timed out after " ++ toString timeoutMs ++ "ms"

/-- retry.ts withTimeout, as a race. The wrapped operation is summarised by
`resolution`: `some (t, r)` when it settles with outcome `r` at time `t` (ms),
`none` when it never settles. The race yields the settle time and outcome:
if the timer fires first, a rejection carrying `timeoutMessage`. -/
def withTimeout {A : Type} (resolution : Option (Nat × Except String A))
    (timeoutMs : Nat) : Nat × Except String A :=
  match resolution with
  | some (t, r) =>
    if t < timeoutMs then (t, r) else (timeoutMs, .error (timeoutMessage timeoutMs))
  | none => (timeoutMs, .error (timeoutMessage timeoutMs))

/-! ## gemini-text.ts : GeminiTextProvider.generate and helpers -/

/-- gemini-text.ts THINKING_LEVEL_MAP: user-facing level to API value. -/
def THINKING_LEVEL_MAP : ThinkingLevelOption → String
  | .minimal => "MINIMAL"
  | .low => "LOW"
  | .medium => "MEDIUM"
  | .high => "HIGH"

/-- The suffix of `cs` starting at its last dot, when `cs` has a dot. -/
def lastDotSuffix : List Char → Option (List Char)
  | [] => none
  | c :: cs =>
    match lastDotSuffix cs with
    | some s => some s
    | none => if c = '.' then some (c :: cs) else none

/-- Model of node `path.extname`: the extension of the basename, from its last
dot, empty when the basename has no dot past its first character. -/
def extname (p : String) : String :=
  let base := (p.data.reverse.takeWhile (fun c => c ≠ '/')).reverse
  match base with
  | [] => ""
  | _ :: rest =>
    match lastDotSuffix rest with
    | some s => ⟨s⟩
    | none => ""

/-- gemini-text.ts getMimeType: look the lower-cased extension up in
SUPPORTED_MIME_TYPES, fail with the unsupported-file-type message otherwise. -/
def getMimeType (filePath : String) : Except String String :=
  let ext := jsToLower (extname filePath)
  match SUPPORTED_MIME_TYPES.lookup ext with
  | some mimeType => .ok mimeType
  | none =>
    .error ("Unsupported file type \"" ++ ext ++ "\". Supported types: " ++
      String.intercalate ", " (SUPPORTED_MIME_TYPES.map Prod.fst))

/-- gemini-text.ts DEFAULT_TIMEOUT_MS (5 minutes). -/
def TEXT_DEFAULT_TIMEOUT_MS : Nat := 300000

/-- types.ts TextGenerateOptions; optional fields are `Option`, defaults are
applied inside `generateText` exactly as the source destructuring does. -/
structure TextGenerateOptions where
  prompt : String
  systemPrompt : Option String := none
  model : Option SupportedTextModel := none
  thinkingLevel : Option ThinkingLevelOption := none
  maxTokens : Option Nat := none
  temperature : Option ℚ := none
  files : List String := []

/-- One element of the `contents` array sent to the vendor. -/
inductive ContentItem
  | textItem (text : String)
  | inlineItem (mimeType : String) (dataBase64 : String)
deriving DecidableEq

/-- The thinkingConfig object built by gemini-text.ts. -/
structure ThinkingConfig where
  thinkingLevel : String
  includeThoughts : Bool
deriving DecidableEq

/-- The config object built by gemini-text.ts. -/
structure TextConfig where
  maxOutputTokens : Nat
  temperature : ℚ
  thinkingConfig : ThinkingConfig
deriving DecidableEq

/-- An inlineData payload of a response part. -/
structure InlineData where
  mimeType : Option String := none
  dataBase64 : String := ""
deriving DecidableEq

/-- One content part of a vendor response candidate. -/
structure ResponsePart where
  text : Option String := none
  thought : Bool := false
  inlineData : Option InlineData := none
deriving DecidableEq

/-- One candidate of a vendor response. -/
structure Candidate where
  parts : List ResponsePart
deriving DecidableEq

/-- The usageMetadata of a vendor response. -/
structure UsageMetadata where
  promptTokenCount : Option Nat := none
  candidatesTokenCount : Option Nat := none
  totalTokenCount : Option Nat := none
  thoughtsTokenCount : Option Nat := none
deriving DecidableEq

/-- A vendor generateContent response. -/
structure GenResponse where
  text : Option String := none
  candidates : List Candidate := []
  usageMetadata : Option UsageMetadata := none
deriving DecidableEq

/-- types.ts UsageInfo. -/
structure UsageInfo where
  promptTokens : Option Nat := none
  completionTokens : Option Nat := none
  totalTokens : Option Nat := none
  thoughtsTokens : Option Nat := none
deriving DecidableEq

/-- types.ts GenerateResult. -/
structure GenerateResult where
  text : Option String := none
  imagePath : Option String := none
  usage : Option UsageInfo := none
  model : String
deriving DecidableEq

/-- Outcome of `generateText`, with its observable effects: whether the vendor
call was reached, and which file paths had their bytes read (base64-encoded),
in order. -/
structure TextGenOutcome where
  result : Except String GenerateResult
  networkCalled : Bool
  reads : List String

/-- The attachment loop of gemini-text.ts generate (lines before the try
block): for each path, reject when the path does not exist, reject when the
extension is unsupported, otherwise read the bytes (recorded in the second
component) and emit an inlineData content item. The file system is
`fs : path → Option base64`, `none` meaning `existsSync` is false. -/
def resolveFiles (fs : String → Option String) : List String →
    Except String (List ContentItem) × List String
  | [] => (.ok [], [])
  | filePath :: rest =>
    match fs filePath with
    | none => (.error ("File not found: " ++ filePath), [])
    | some contents =>
      match getMimeType filePath with
      | .error e => (.error e, [])
      | .ok mimeType =>
        let restOut := resolveFiles fs rest
        (restOut.1.map (fun items => .inlineItem mimeType contents :: items),
         filePath :: restOut.2)

/-- The catch block of gemini-text.ts generate: map a raw failure message to
the error-category token and the rewritten human message. -/
def classifyTextError (message : String) : String × String :=
  let errorMessage := if message = "" then "Unknown error during generation" else message
  if strContains message "API key" || strContains message "API_KEY" then
    ("AUTH_ERROR", "Invalid or missing Gemini API key")
  else if strContains message "quota" || strContains message "rate" ||
      strContains message "429" then
    ("RATE_LIMIT", "Gemini API rate limit or quota exceeded. Please wait and retry.")
  else if strContains message "safety" then
    ("SAFETY_BLOCK", "Content was blocked by Gemini safety filters")
  else if strContains message "blocked" then
    ("CONTENT_BLOCKED", "Request was blocked. Try rephrasing the prompt.")
  else if strContains message "TIMEOUT" then
    ("TIMEOUT", "Request timed out. The prompt may be too complex or the service is slow.")
  else
    ("GENERATION_ERROR", errorMessage)

/-- The demux loop over the first candidate of the response: accumulate each
non-empty part text into the thought-summary buffer when the part is marked as
a thought, into the answer buffer otherwise. Returns (answer, thoughtSummary). -/
def demuxParts (parts : List ResponsePart) : String × String :=
  parts.foldl
    (fun acc part =>
      match part.text with
      | some partText =>
        if partText = "" then acc
        else if part.thought then (acc.1, acc.2 ++ partText ++ "\n")
        else (acc.1 ++ partText, acc.2)
      | none => acc)
    ("", "")

/-- Response demultiplexing of gemini-text.ts generate: direct text when
present (and non-empty, JavaScript truthiness), otherwise walk the first
parts of the first candidate. -/
def demuxResponse (response : GenResponse) : String × String :=
  let fromCandidates :=
    match response.candidates with
    | [] => ("", "")
    | c :: _ => demuxParts c.parts
  match response.text with
  | some t => if t = "" then fromCandidates else (t, "")
  | none => fromCandidates

/-- Usage counters copied through verbatim when the vendor supplies them. -/
def usageOfMetadata (um : Option UsageMetadata) : Option UsageInfo :=
  um.map fun u =>
    { promptTokens := u.promptTokenCount,
      completionTokens := u.candidatesTokenCount,
      totalTokens := u.totalTokenCount,
      thoughtsTokens := u.thoughtsTokenCount }

/-- The try block of gemini-text.ts generate: demultiplex a successful vendor
response into answer text plus the delimited thinking summary, or reclassify a
vendor failure and rewrap it as "<CATEGORY>: <message>". -/
def textTryBlock (model : SupportedTextModel)
    (vendorResult : Except String GenResponse) : Except String GenerateResult :=
  match vendorResult with
  | .error e =>
    .error ((classifyTextError e).1 ++ ": " ++ (classifyTextError e).2)
  | .ok response =>
    let demuxed := demuxResponse response
    let finalText :=
      if demuxed.2 = "" then demuxed.1
      else demuxed.1 ++ "\n\n---\n**Thinking Summary:**\n" ++ demuxed.2
    .ok { text := some finalText, model := model.str,
          usage := usageOfMetadata response.usageMetadata }

/-- gemini-text.ts GeminiTextProvider.generate. `fs` models the file system;
`vendor` models the retried, timeout-wrapped generateContent call: given the
assembled contents and config it yields the final outcome of that call. -/
def generateText (options : TextGenerateOptions) (fs : String → Option String)
    (vendor : List ContentItem → TextConfig → Except String GenResponse) :
    TextGenOutcome :=
  let prompt := options.prompt
  let model := options.model.getD DEFAULT_TEXT_MODEL
  let thinkingLevel := options.thinkingLevel.getD .high
  let maxTokens := options.maxTokens.getD 65536
  let temperature := options.temperature.getD (7 / 10 : ℚ)
  match validateThinkingLevel model thinkingLevel with
  | some validationError =>
    ⟨.error ("VALIDATION_ERROR: " ++ validationError), false, []⟩
  | none =>
    let textPrompt :=
      match options.systemPrompt with
      | some sp => "<system>\n" ++ sp ++ "\n</system>\n\n" ++ prompt
      | none => prompt
    let resolved := resolveFiles fs options.files
    match resolved.1 with
    | .error e => ⟨.error e, false, resolved.2⟩
    | .ok fileItems =>
      let contents := fileItems ++ [ContentItem.textItem textPrompt]
      let config : TextConfig :=
        { maxOutputTokens := maxTokens,
          temperature := temperature,
          thinkingConfig :=
            { thinkingLevel := THINKING_LEVEL_MAP thinkingLevel,
              includeThoughts := true } }
      ⟨textTryBlock model (vendor contents config), true, resolved.2⟩

/-! ## index.ts : the generate_text tool branch -/

/-- The payload a tool call returns across the boundary. -/
structure ToolResponse where
  text : String
  isError : Bool
deriving DecidableEq

/-- The generate_text branch of the index.ts CallToolRequestSchema handler:
reject a missing or whitespace-only prompt locally, otherwise surface the
provider outcome, prefixing failures with "Error: ". -/
def handleGenerateText (prompt : String) (providerOutcome : Except String GenerateResult) :
    ToolResponse :=
  if prompt = "" || jsTrim prompt = "" then
    ⟨"Error: Prompt cannot be empty", true⟩
  else
    match providerOutcome with
    | .ok result => ⟨result.text.getD "", false⟩
    | .error e =>
      ⟨"Error: " ++ (if e = "" then "Unknown error during generation" else e), true⟩

/-! ## gemini-image.ts : GeminiImageProvider.generate and helpers -/

/-- The two supported image models. -/
inductive SupportedImageModel
  | nanoBanana
  | nanoBananaPro
deriving DecidableEq

/-- The user-facing image model identifier strings. -/
def SupportedImageModel.str : SupportedImageModel → String
  | .nanoBanana => "nano-banana"
  | .nanoBananaPro => "nano-banana-pro"

/-- gemini-image.ts MAX_REFERENCE_IMAGES. -/
def MAX_REFERENCE_IMAGES : SupportedImageModel → Nat
  | .nanoBanana => 3
  | .nanoBananaPro => 14

/-- gemini-image.ts VALID_ASPECT_RATIOS. -/
def VALID_ASPECT_RATIOS : List String :=
  ["1:1", "2:3", "3:2", "3:4", "4:3", "4:5", "5:4", "9:16", "16:9", "21:9"]

/-- gemini-image.ts DEFAULT_TIMEOUT_MS (3 minutes). -/
def IMAGE_DEFAULT_TIMEOUT_MS : Nat := 180000

/-- types.ts ImageGenerateOptions. -/
structure ImageGenerateOptions where
  prompt : String
  outputPath : String
  model : Option SupportedImageModel := none
  referenceImages : List String := []
  aspectRatio : Option String := none

/-- The aspect-ratio pre-flight guard of gemini-image.ts generate:
`aspectRatio && !VALID_ASPECT_RATIOS.includes(aspectRatio)`. -/
def aspectRatioInvalid : Option String → Bool
  | some ar => ar ≠ "" && !(VALID_ASPECT_RATIOS.contains ar)
  | none => false

/-- The data-URL regex of gemini-image.ts: matches
`data:<mime>;base64,<payload>` with a non-empty mime free of semicolons and a
non-empty payload, returning (mime, payload). -/
def parseDataUrl (referenceImage : String) : Option (String × String) :=
  if strStartsWith referenceImage "data:" then
    let rest := referenceImage.data.drop 5
    let mime := rest.takeWhile (fun c => c ≠ ';')
    let after := rest.drop mime.length
    if mime ≠ [] && ";base64,".data.isPrefixOf after && after.drop 8 ≠ [] then
      some (⟨mime⟩, ⟨after.drop 8⟩)
    else none
  else none

/-- Reference-image decoding of gemini-image.ts generate: a matching data URL
supplies the mime type and the embedded payload, anything else is taken as raw
base64 with mime defaulted to PNG. -/
def decodeReferenceImage (referenceImage : String) : String × String :=
  match parseDataUrl referenceImage with
  | some parsed => parsed
  | none => ("image/png", referenceImage)

/-- The contents sent by the image provider: the bare prompt string when no
reference images are present, otherwise the decoded images followed by the
prompt. -/
inductive ImageContents
  | plainPrompt (prompt : String)
  | withRefs (items : List ContentItem)
deriving DecidableEq

/-- Contents assembly of gemini-image.ts generate. -/
def buildImageContents (prompt : String) (referenceImages : List String) :
    ImageContents :=
  if referenceImages.length > 0 then
    .withRefs
      ((referenceImages.map fun r =>
        ContentItem.inlineItem (decodeReferenceImage r).1 (decodeReferenceImage r).2) ++
        [ContentItem.textItem prompt])
  else
    .plainPrompt prompt

/-- The config object of gemini-image.ts generate: both response modalities
always, the aspect ratio passed through as imageGenerationConfig when truthy. -/
structure ImageConfig where
  responseModalities : List String := ["image", "text"]
  imageGenerationConfig : Option String := none
deriving DecidableEq

/-- Builds the image config from the options. -/
def imageConfigOf (options : ImageGenerateOptions) : ImageConfig :=
  { imageGenerationConfig :=
      match options.aspectRatio with
      | some ar => if ar = "" then none else some ar
      | none => none }

/-- The inner part loop of the image extraction: the first part carrying an
inlineData payload, as (data, mime with PNG default for a missing or empty
mime). -/
def extractFromParts : List ResponsePart → Option (String × String)
  | [] => none
  | part :: rest =>
    match part.inlineData with
    | some inl =>
      some (inl.dataBase64,
        match inl.mimeType with
        | some m => if m = "" then "image/png" else m
        | none => "image/png")
    | none => extractFromParts rest

/-- The candidate loop of the image extraction: per candidate, only its first
inlineData part is inspected; the outer loop moves on while the accumulated
imageData is still falsy (absent or empty). -/
def extractImage : List Candidate → Option (String × String)
  | [] => none
  | c :: rest =>
    match extractFromParts c.parts with
    | some found => if found.1 = "" then extractImage rest else some found
    | none => extractImage rest

/-- The catch block of gemini-image.ts generate. -/
def classifyImageError (message : String) : String × String :=
  let errorMessage :=
    if message = "" then "Unknown error during image generation" else message
  if strContains message "API key" || strContains message "API_KEY" then
    ("AUTH_ERROR", "Invalid or missing Gemini API key")
  else if strContains message "quota" || strContains message "rate" ||
      strContains message "429" then
    ("RATE_LIMIT", "Gemini API rate limit or quota exceeded. Please wait and retry.")
  else if strContains message "safety" then
    ("SAFETY_BLOCK", "Image was blocked by Gemini safety filters")
  else if strContains message "blocked" then
    ("CONTENT_BLOCKED", "Request was blocked. Try rephrasing the prompt.")
  else if strContains message "TIMEOUT" then
    ("TIMEOUT", "Request timed out. The image generation may be taking too long.")
  else
    ("GENERATION_ERROR", errorMessage)

/-- Model of node `path.dirname`. -/
def dirnameOf (p : String) : String :=
  let afterLast := p.data.reverse.dropWhile (fun c => c ≠ '/')
  match afterLast with
  | [] => "."
  | _ :: above => if above = [] then "/" else ⟨above.reverse⟩

/-- A file-system write effect of the image provider. -/
inductive FsAction
  | mkdirRecursive (dir : String)
  | writeFile (path : String) (dataBase64 : String)
deriving DecidableEq

/-- Outcome of `generateImage` with its observable effects: whether the vendor
call was reached and the file-system actions issued, in order. -/
structure ImageGenOutcome where
  result : Except String GenerateResult
  networkCalled : Bool
  actions : List FsAction

/-- The try block of gemini-image.ts generate: on a successful vendor
response, extract the first inline image, then create the output directory if
missing and write the decoded payload; a response with no inline image is a
failure raised inside the try and hence classified by the catch block, like a
vendor failure. Returns the result and the file-system actions performed. -/
def imageTryBlock (outputPath : String) (model : SupportedImageModel)
    (dirMissing : Bool) (vendorResult : Except String GenResponse) :
    Except String GenerateResult × List FsAction :=
  match vendorResult with
  | .error e =>
    (.error ((classifyImageError e).1 ++ ": " ++ (classifyImageError e).2), [])
  | .ok response =>
    match extractImage response.candidates with
    | none =>
      (.error ((classifyImageError "No image data found in response").1 ++ ": " ++
        (classifyImageError "No image data found in response").2), [])
    | some found =>
      (.ok { imagePath := some outputPath, model := model.str,
             usage :=
               (usageOfMetadata response.usageMetadata).map fun u =>
                 { u with thoughtsTokens := none } },
       (if dirMissing then [FsAction.mkdirRecursive (dirnameOf outputPath)]
        else []) ++ [FsAction.writeFile outputPath found.1])

/-- gemini-image.ts GeminiImageProvider.generate. `vendor` models the retried,
timeout-wrapped generateContent call; `dirMissing` models
`outputDir && !existsSync(outputDir)` at the write step. -/
def generateImage (options : ImageGenerateOptions)
    (vendor : ImageContents → ImageConfig → Except String GenResponse)
    (dirMissing : Bool) : ImageGenOutcome :=
  let model := options.model.getD .nanoBanana
  let maxImages := MAX_REFERENCE_IMAGES model
  if aspectRatioInvalid options.aspectRatio then
    ⟨.error ("Invalid aspect ratio \"" ++ (options.aspectRatio.getD "") ++
      "\". Valid options: " ++ String.intercalate ", " VALID_ASPECT_RATIOS),
     false, []⟩
  else if options.referenceImages.length > maxImages then
    ⟨.error ("Maximum " ++ toString maxImages ++ " reference images allowed for " ++
      model.str), false, []⟩
  else
    let contents := buildImageContents options.prompt options.referenceImages
    let config := imageConfigOf options
    let tried := imageTryBlock options.outputPath model dirMissing
      (vendor contents config)
    ⟨tried.1, true, tried.2⟩

/-! ## gemini-deep-research.ts : pollForCompletion -/

/-- The interaction status reported by the polling endpoint. -/
inductive InteractionStatus
  | inProgress
  | completed
  | failed
deriving DecidableEq

/-- One GET /interactions/id response body. `outputs` elements model the
optional `text` field of each output fragment. -/
structure InteractionResponse where
  id : String := ""
  status : InteractionStatus
  outputs : Option (List (Option String)) := none
  error : Option String := none
deriving DecidableEq

/-- The poll result of one iteration: an HTTP-level failure, or a parsed body. -/
inductive PollStep
  | httpFailure (statusCode : Nat) (body : String)
  | reply (response : InteractionResponse)
deriving DecidableEq

/-- Whether a poll step is a successful reply still reporting in_progress. -/
def isInProgressReply : PollStep → Bool
  | .reply r => r.status = .inProgress
  | .httpFailure _ _ => false

/-- `Math.round(elapsed / 1000 / 60)` on a natural number of milliseconds. -/
def jsRoundMinutes (elapsedMs : Nat) : Nat :=
  (2 * elapsedMs + 60000) / 120000

/-- The TIMEOUT message of the poll loop. -/
def researchTimeoutMessage (interactionId : String) (elapsedMs : Nat) : String :=
  "TIMEOUT: Research timed out after " ++ toString (jsRoundMinutes elapsedMs) ++
    " minutes. The research may still be running - interaction ID: " ++ interactionId

/-- The completed-branch aggregation:
`outputs?.map(o => o.text).filter(Boolean).join("\n\n") || ""`. -/
def joinOutputs (outputs : Option (List (Option String))) : String :=
  match outputs with
  | none => ""
  | some os =>
    String.intercalate "\n\n" ((os.filterMap id).filter fun s => s ≠ "")

/-- The value pollForCompletion resolves with. -/
structure ResearchPollResult where
  text : String
  status : InteractionStatus
  model : String
deriving DecidableEq

/-- gemini-deep-research.ts pollForCompletion. The loop is driven by a trace:
one (elapsed, step) pair per iteration, `elapsed` being the wall-clock
milliseconds since start observed at the top of that iteration (the source
reads `Date.now() - startTime` there; the inter-poll sleep and network times
are absorbed into these values). `none` means the trace ended before the loop
did. -/
def pollForCompletion (interactionId : String) (timeoutMs : Nat) :
    List (Nat × PollStep) → Option (Except String ResearchPollResult)
  | [] => none
  | pe :: rest =>
    if pe.1 > timeoutMs then
      some (.error (researchTimeoutMessage interactionId pe.1))
    else
      match pe.2 with
      | .httpFailure statusCode body =>
        some (.error ("API_ERROR: Failed to poll research status: " ++
          toString statusCode ++ " - " ++ body))
      | .reply data =>
        match data.status with
        | .completed =>
          let text := joinOutputs data.outputs
          if text = "" then
            some (.error "API_ERROR: Research completed but no output text found")
          else
            some (.ok ⟨text, .completed, "deep-research"⟩)
        | .failed =>
          some (.error ("RESEARCH_FAILED: " ++
            (match data.error with
             | some m => if m = "" then "Research failed with unknown error" else m
             | none => "Research failed with unknown error")))
        | .inProgress => pollForCompletion interactionId timeoutMs rest

/-- The closed error-category taxonomy: the seven categories of types.ts
ErrorCategory together with the RESEARCH_FAILED and GENERATION_ERROR tokens
the providers emit. -/
def errorCategoryTokens : List String :=
  ["AUTH_ERROR", "RATE_LIMIT", "SAFETY_BLOCK", "CONTENT_BLOCKED", "TIMEOUT",
   "VALIDATION_ERROR", "API_ERROR", "RESEARCH_FAILED", "GENERATION_ERROR"]

/-! ## Helper lemmas on the string models -/

deriving instance DecidableEq for Except

theorem strStartsWith_intro {s pre : String} (h : pre.data <+: s.data) :
    strStartsWith s pre = true :=
  List.isPrefixOf_iff_prefix.mpr h

theorem strStartsWith_append (pre rest : String) :
    strStartsWith (pre ++ rest) pre = true :=
  strStartsWith_intro (by rw [String.data_append]; exact List.prefix_append _ _)

theorem containsSub_correct (needle : List Char) :
    ∀ hay : List Char, containsSub hay needle = true ↔ needle <:+: hay := by
  intro hay
  induction hay with
  | nil =>
    simp only [containsSub, List.isEmpty_iff]
    constructor
    · rintro rfl; exact List.infix_refl _
    · intro h; exact List.eq_nil_of_infix_nil h
  | cons c t ih =>
    simp only [containsSub, Bool.or_eq_true, ih, List.infix_cons_iff,
      List.isPrefixOf_iff_prefix]

theorem strContains_intro {s sub : String} (h : sub.data <:+: s.data) :
    strContains s sub = true :=
  (containsSub_correct _ _).mpr h

/-! ## Lemmas on the back-off delay sequence -/

theorem backoffDelay_shift (mult cap d : Nat) :
    ∀ k, backoffDelay mult cap d (k + 1) = backoffDelay mult cap (min (d * mult) cap) k := by
  intro k
  induction k with
  | zero => rfl
  | succ k ih => rw [backoffDelay, ih, backoffDelay]

theorem backoffDelay_le_cap (mult cap d : Nat) (hd : d ≤ cap) :
    ∀ k, backoffDelay mult cap d k ≤ cap
  | 0 => hd
  | _ + 1 => Nat.min_le_right _ _

theorem backoffDelay_step_le (mult cap d : Nat) (hmult : 1 ≤ mult) (hd : d ≤ cap) (k : Nat) :
    backoffDelay mult cap d k ≤ backoffDelay mult cap d (k + 1) := by
  rw [backoffDelay]
  exact Nat.le_min.mpr
    ⟨Nat.le_mul_of_pos_right _ hmult, backoffDelay_le_cap mult cap d hd k⟩

theorem chain_le_map_range {f : Nat → Nat} (hf : ∀ k, f k ≤ f (k + 1)) (n : Nat) :
    ((List.range n).map f).Chain' (· ≤ ·) := by
  rw [List.chain'_map]
  cases n with
  | zero => simp
  | succ m => exact (List.chain'_range_succ _ m).mpr fun k _ => hf k

/-- An operation that fails on every attempt with a retryable failure drives
the loop through every allowed attempt, sleeping the back-off sequence. -/
theorem retryLoop_all_fail {A : Type} (fn : Nat → Except String A)
    (retryable : String → Bool) (mult cap : Nat) (errOf : Nat → String)
    (hfail : ∀ k, fn k = .error (errOf k))
    (hretry : ∀ k, retryable (errOf k) = true) :
    ∀ (n attempt d : Nat),
      retryLoop fn retryable mult cap n attempt d =
        ⟨.error (errOf (attempt + n)),
         (List.range n).map (backoffDelay mult cap d), n + 1⟩ := by
  intro n
  induction n with
  | zero =>
    intro attempt d
    simp [retryLoop, hfail attempt]
  | succ m ih =>
    intro attempt d
    simp only [retryLoop, hfail attempt, hretry attempt, if_true]
    rw [ih (attempt + 1) (min (d * mult) cap)]
    simp only [RetryTrace.mk.injEq]
    refine ⟨?_, ?_, trivial⟩
    · have harith : attempt + 1 + m = attempt + (m + 1) := by omega
      rw [harith]
    · rw [List.range_succ_eq_map, List.map_cons, List.map_map]
      refine congrArg₂ List.cons rfl ?_
      refine (List.map_congr_left fun k _ => ?_).symm
      exact backoffDelay_shift mult cap d k

/-! ## C1 -/

/-- C1: for every supported text model and thinking level,
`validateThinkingLevel` accepts exactly the levels in the capability
set of the model (pro: low/high, flash: all four); (gemini-3-pro, medium) is rejected,
(gemini-3-flash, medium) is accepted; and whenever the check fails,
`GeminiTextProvider.generate` fails with a VALIDATION_ERROR-prefixed message
without the vendor being called. -/
theorem c1_thinking_level_validation :
    (∀ m l, validateThinkingLevel m l = none ↔ l ∈ MODEL_THINKING_LEVELS m) ∧
    validateThinkingLevel .geminiPro .medium ≠ none ∧
    validateThinkingLevel .geminiFlash .medium = none ∧
    ∀ (options : TextGenerateOptions) (fs : String → Option String)
      (vendor : List ContentItem → TextConfig → Except String GenResponse) (e : String),
      validateThinkingLevel (options.model.getD DEFAULT_TEXT_MODEL)
          (options.thinkingLevel.getD .high) = some e →
      (generateText options fs vendor).result = .error ("VALIDATION_ERROR: " ++ e) ∧
      (generateText options fs vendor).networkCalled = false := by
  refine ⟨fun m l => by cases m <;> cases l <;> decide, by decide, by decide, ?_⟩
  intro options fs vendor e h
  constructor <;> simp only [generateText, h]

/-- Concrete options used by the C1 witness: pro model, level medium. -/
def c1Options : TextGenerateOptions :=
  { prompt := "hello", model := some .geminiPro, thinkingLevel := some .medium }

/-- C1 witness: the pro model with level medium is concretely rejected before
any vendor call. -/
theorem c1_thinking_level_validation_witness :
    (generateText c1Options (fun _ => none) (fun _ _ => .error "unreached")).result =
      .error ("VALIDATION_ERROR: " ++
        "gemini-3-pro only supports thinking levels: low, high. Got: medium") ∧
    (generateText c1Options (fun _ => none)
        (fun _ _ => .error "unreached")).networkCalled = false :=
  c1_thinking_level_validation.2.2.2 c1Options
    (fun _ => none) (fun _ _ => .error "unreached") _ (by decide)

/-! ## C2 -/

/-- C2: an operation failing every attempt with a retryable failure is invoked
exactly maxRetries + 1 times, the last failure is propagated, and the sleeps
are the back-off sequence `delay, min (delay * mult) cap, ...`: non-decreasing
and capped at maxDelayMs (given a multiplier of at least one and an initial
delay within the cap, as in the defaults). -/
theorem c2_retry_exhaustion {A : Type} (fn : Nat → Except String A)
    (options : RetryOptions) (errOf : Nat → String)
    (hfail : ∀ k, fn k = .error (errOf k))
    (hretry : ∀ k, isRetryableError (errOf k) options.retryableErrors = true)
    (hinit : options.initialDelayMs ≤ options.maxDelayMs)
    (hmult : 1 ≤ options.backoffMultiplier) :
    (withRetry fn options).calls = options.maxRetries + 1 ∧
    (withRetry fn options).result = .error (errOf (options.maxRetries + 1)) ∧
    (withRetry fn options).sleeps =
      (List.range options.maxRetries).map
        (backoffDelay options.backoffMultiplier options.maxDelayMs
          options.initialDelayMs) ∧
    (withRetry fn options).sleeps.Chain' (· ≤ ·) ∧
    ∀ d ∈ (withRetry fn options).sleeps, d ≤ options.maxDelayMs := by
  have hrun := retryLoop_all_fail fn
    (fun m => isRetryableError m options.retryableErrors)
    options.backoffMultiplier options.maxDelayMs errOf hfail hretry
    options.maxRetries 1 options.initialDelayMs
  rw [withRetry, hrun]
  refine ⟨rfl, by rw [Nat.add_comm], rfl, ?_, ?_⟩
  · exact chain_le_map_range
      (backoffDelay_step_le _ _ _ hmult hinit) _
  · intro d hd
    obtain ⟨k, _, rfl⟩ := List.mem_map.mp hd
    exact backoffDelay_le_cap _ _ _ hinit k

/-- C2 witness: with the default options (3 retries) an always-429 operation
runs four times and sleeps 1000, 2000, 4000 ms. -/
theorem c2_retry_exhaustion_witness :
    (withRetry (fun _ => (Except.error "429" : Except String Unit)) {}).calls = 3 + 1 ∧
    (withRetry (fun _ => (Except.error "429" : Except String Unit)) {}).result =
      .error "429" ∧
    (withRetry (fun _ => (Except.error "429" : Except String Unit)) {}).sleeps =
      [1000, 2000, 4000] := by
  have h429 : isRetryableError "429" ({} : RetryOptions).retryableErrors = true := by
    decide
  have h := c2_retry_exhaustion (fun _ => (Except.error "429" : Except String Unit))
    {} (fun _ => "429") (fun _ => rfl) (fun _ => h429) (by decide) (by decide)
  exact ⟨h.1, h.2.1, by decide⟩

/-! ## C6 -/

/-- C6: an operation whose failure matches no retryable pattern is invoked
exactly once and its failure is propagated unchanged, with no sleep. -/
theorem c6_non_retryable_single_call {A : Type} (fn : Nat → Except String A)
    (options : RetryOptions) (e : String)
    (h1 : fn 1 = .error e)
    (h2 : isRetryableError e options.retryableErrors = false) :
    (withRetry fn options).result = .error e ∧
    (withRetry fn options).calls = 1 ∧
    (withRetry fn options).sleeps = [] := by
  rw [withRetry]
  cases options.maxRetries <;> simp [retryLoop, h1, h2]

/-- C6 witness: a non-retryable failure under the default options. -/
theorem c6_non_retryable_single_call_witness :
    (withRetry (fun _ => (Except.error "boom" : Except String Unit)) {}).result =
      .error "boom" ∧
    (withRetry (fun _ => (Except.error "boom" : Except String Unit)) {}).calls = 1 ∧
    (withRetry (fun _ => (Except.error "boom" : Except String Unit)) {}).sleeps = [] :=
  c6_non_retryable_single_call _ {} "boom" rfl (by decide)

/-! ## C7 -/

/-- C7: wrapping an operation that never settles makes the race reject exactly
when the timer fires, at the configured duration, with a message that carries
the TIMEOUT tag and contains that duration. -/
theorem c7_timeout_never_resolving (A : Type) (timeoutMs : Nat) :
    withTimeout (A := A) none timeoutMs =
      (timeoutMs, .error (timeoutMessage timeoutMs)) ∧
    strStartsWith (timeoutMessage timeoutMs) "TIMEOUT" = true ∧
    strContains (timeoutMessage timeoutMs) (toString timeoutMs ++ "ms") = true := by
  refine ⟨rfl, ?_, ?_⟩
  · refine strStartsWith_intro ?_
    rw [timeoutMessage]
    refine List.IsPrefix.trans
      (by decide : "TIMEOUT".data <+: "TIMEOUT: Operation timed out after ".data) ?_
    rw [String.data_append, String.data_append, List.append_assoc]
    exact List.prefix_append _ _
  · refine strContains_intro ?_
    rw [timeoutMessage]
    refine ⟨"TIMEOUT: Operation timed out after ".data, [], ?_⟩
    simp [String.data_append]

/-! ## C4 -/

/-- A path whose file does not exist is never read by the attachment loop. -/
theorem resolveFiles_not_read_of_missing (fs : String → Option String) :
    ∀ (files : List String) (p : String), fs p = none →
      p ∉ (resolveFiles fs files).2 := by
  intro files
  induction files with
  | nil => intro p _ h; exact absurd h (List.not_mem_nil p)
  | cons f rest ih =>
    intro p hnone
    simp only [resolveFiles]
    cases hf : fs f with
    | none => simp
    | some c =>
      cases hm : getMimeType f with
      | error e => simp
      | ok mt =>
        simp only [List.mem_cons, not_or]
        refine ⟨fun hpf => ?_, ih p hnone⟩
        rw [← hpf] at hf
        rw [hnone] at hf
        exact Option.noConfusion hf

/-- The attachment loop fails whenever some listed path does not exist. -/
theorem resolveFiles_error_of_missing (fs : String → Option String) :
    ∀ (files : List String) (p : String), p ∈ files → fs p = none →
      ∃ e, (resolveFiles fs files).1 = .error e := by
  intro files
  induction files with
  | nil => intro p hp _; exact absurd hp (List.not_mem_nil p)
  | cons f rest ih =>
    intro p hp hnone
    simp only [resolveFiles]
    cases hf : fs f with
    | none => exact ⟨_, rfl⟩
    | some c =>
      cases hm : getMimeType f with
      | error e => exact ⟨e, rfl⟩
      | ok mt =>
        have hpr : p ∈ rest := by
          rcases List.mem_cons.mp hp with rfl | hr
          · rw [hnone] at hf; exact Option.noConfusion hf
          · exact hr
        obtain ⟨e, he⟩ := ih p hpr hnone
        exact ⟨e, by rw [he]; rfl⟩

/-- C4: the resolver maps a .png path to MIME image/png; a .gif path (absent
from the supported table) is rejected with the unsupported-file-type message;
and a nonexistent attachment path makes generate fail locally: its bytes are
never read and the vendor is never called. -/
theorem c4_attachment_resolution :
    (∀ p, jsToLower (extname p) = ".png" → getMimeType p = .ok "image/png") ∧
    (∀ p, jsToLower (extname p) = ".gif" →
      getMimeType p = .error ("Unsupported file type \".gif\". Supported types: " ++
        String.intercalate ", " (SUPPORTED_MIME_TYPES.map Prod.fst))) ∧
    ∀ (options : TextGenerateOptions) (fs : String → Option String)
      (vendor : List ContentItem → TextConfig → Except String GenResponse)
      (p : String), p ∈ options.files → fs p = none →
      (∃ m, (generateText options fs vendor).result = .error m) ∧
      (generateText options fs vendor).networkCalled = false ∧
      p ∉ (generateText options fs vendor).reads := by
  refine ⟨fun p h => by simp only [getMimeType, h]; rfl,
    fun p h => by simp only [getMimeType, h]; rfl, ?_⟩
  intro options fs vendor p hp hnone
  have hreads := resolveFiles_not_read_of_missing fs options.files p hnone
  cases hv : validateThinkingLevel (options.model.getD DEFAULT_TEXT_MODEL)
      (options.thinkingLevel.getD .high) with
  | some v =>
    exact ⟨⟨"VALIDATION_ERROR: " ++ v, by simp [generateText, hv]⟩,
      by simp [generateText, hv], by simp [generateText, hv]⟩
  | none =>
    obtain ⟨e, he⟩ := resolveFiles_error_of_missing fs options.files p hp hnone
    refine ⟨⟨e, ?_⟩, ?_, ?_⟩
    · simp only [generateText, hv, he]
    · simp only [generateText, hv, he]
    · simp only [generateText, hv, he]
      exact hreads

/-- Concrete options used by the C4 witness: one missing attachment. -/
def c4Options : TextGenerateOptions :=
  { prompt := "describe", files := ["/missing/photo.png"] }

/-- C4 witness: the concrete mappings and a concrete missing path. -/
theorem c4_attachment_resolution_witness :
    getMimeType "/tmp/chart.png" = .ok "image/png" ∧
    getMimeType "/tmp/anim.gif" =
      .error ("Unsupported file type \".gif\". Supported types: " ++
        String.intercalate ", " (SUPPORTED_MIME_TYPES.map Prod.fst)) ∧
    (∃ m, (generateText c4Options (fun _ => none)
      (fun _ _ => .error "unreached")).result = .error m) ∧
    (generateText c4Options (fun _ => none)
      (fun _ _ => .error "unreached")).networkCalled = false ∧
    "/missing/photo.png" ∉ (generateText c4Options (fun _ => none)
      (fun _ _ => .error "unreached")).reads := by
  have h3 := c4_attachment_resolution.2.2 c4Options (fun _ => none)
    (fun _ _ => .error "unreached") "/missing/photo.png" (by decide) rfl
  exact ⟨c4_attachment_resolution.1 "/tmp/chart.png" (by decide),
    c4_attachment_resolution.2.1 "/tmp/anim.gif" (by decide), h3.1, h3.2.1, h3.2.2⟩

/-! ## C5 -/

/-- Concrete options used for C5: four reference images against nano-banana. -/
def c5Options : ImageGenerateOptions :=
  { prompt := "p", outputPath := "/tmp/out.png", model := some .nanoBanana,
    referenceImages := ["a", "b", "c", "d"] }

/-- C5 counterexample: four reference images against the 3-image-cap model are
rejected before any vendor call, but the failure is the bare message
"Maximum 3 reference images allowed for nano-banana": it does not carry the
VALIDATION_ERROR token (nor any category token followed by a colon). -/
theorem c5_overflow_message_untagged :
    (generateImage c5Options (fun _ _ => .error "unreached") false).result =
      .error "Maximum 3 reference images allowed for nano-banana" ∧
    (generateImage c5Options (fun _ _ => .error "unreached") false).networkCalled
      = false ∧
    strStartsWith "Maximum 3 reference images allowed for nano-banana"
      "VALIDATION_ERROR" = false ∧
    ∀ cat ∈ errorCategoryTokens,
      strStartsWith "Maximum 3 reference images allowed for nano-banana"
        (cat ++ ":") = false := by
  refine ⟨by decide, by decide, by decide, by decide⟩

/-- C5 amended: a reference-image count above the cap of the selected model is
rejected before any vendor call and with no file-system action, the failure
message being "Maximum <cap> reference images allowed for <model>" (with no
category token prefix). -/
theorem c5_overflow_rejected_before_network (options : ImageGenerateOptions)
    (vendor : ImageContents → ImageConfig → Except String GenResponse)
    (dirMissing : Bool)
    (haspect : aspectRatioInvalid options.aspectRatio = false)
    (hcount : MAX_REFERENCE_IMAGES (options.model.getD .nanoBanana) <
      options.referenceImages.length) :
    (generateImage options vendor dirMissing).result =
      .error ("Maximum " ++
        toString (MAX_REFERENCE_IMAGES (options.model.getD .nanoBanana)) ++
        " reference images allowed for " ++ (options.model.getD .nanoBanana).str) ∧
    (generateImage options vendor dirMissing).networkCalled = false ∧
    (generateImage options vendor dirMissing).actions = [] := by
  refine ⟨?_, ?_, ?_⟩ <;>
    simp only [generateImage, haspect, Bool.false_eq_true, if_false, if_pos hcount]

/-- C5 amended witness: the concrete four-image overflow. -/
theorem c5_overflow_rejected_before_network_witness :
    (generateImage c5Options (fun _ _ => .error "unreached") true).result =
      .error "Maximum 3 reference images allowed for nano-banana" ∧
    (generateImage c5Options (fun _ _ => .error "unreached") true).networkCalled
      = false ∧
    (generateImage c5Options (fun _ _ => .error "unreached") true).actions = [] := by
  have h := c5_overflow_rejected_before_network c5Options
    (fun _ _ => .error "unreached") true (by decide) (by decide)
  exact ⟨h.1.trans (by decide), h.2.1, h.2.2⟩

/-! ## C10 -/

/-- Every run of the image provider either fails having issued no file-system
action, or succeeds with the vendor response yielding an extracted inline
image whose payload is what gets written, after the conditional directory
creation. -/
theorem generateImage_split (options : ImageGenerateOptions)
    (vendor : ImageContents → ImageConfig → Except String GenResponse)
    (dirMissing : Bool) :
    ((∃ m, (generateImage options vendor dirMissing).result = .error m) ∧
      (generateImage options vendor dirMissing).actions = []) ∨
    (∃ response found,
      vendor (buildImageContents options.prompt options.referenceImages)
        (imageConfigOf options) = .ok response ∧
      extractImage response.candidates = some found ∧
      (∀ m, (generateImage options vendor dirMissing).result ≠ .error m) ∧
      (generateImage options vendor dirMissing).actions =
        (if dirMissing then [FsAction.mkdirRecursive (dirnameOf options.outputPath)]
         else []) ++ [FsAction.writeFile options.outputPath found.1]) := by
  by_cases ha : aspectRatioInvalid options.aspectRatio = true
  · refine Or.inl ⟨⟨"Invalid aspect ratio \"" ++ options.aspectRatio.getD "" ++
      "\". Valid options: " ++ String.intercalate ", " VALID_ASPECT_RATIOS, ?_⟩, ?_⟩ <;>
      simp only [generateImage, ha, if_true]
  · rw [Bool.not_eq_true] at ha
    by_cases hc : options.referenceImages.length >
        MAX_REFERENCE_IMAGES (options.model.getD .nanoBanana)
    · refine Or.inl ⟨⟨"Maximum " ++
        toString (MAX_REFERENCE_IMAGES (options.model.getD .nanoBanana)) ++
        " reference images allowed for " ++ (options.model.getD .nanoBanana).str,
        ?_⟩, ?_⟩ <;>
        simp only [generateImage, ha, Bool.false_eq_true, if_false, if_pos hc]
    · cases hv : vendor (buildImageContents options.prompt options.referenceImages)
          (imageConfigOf options) with
      | error e =>
        refine Or.inl ⟨⟨(classifyImageError e).1 ++ ": " ++ (classifyImageError e).2,
          ?_⟩, ?_⟩ <;>
          simp only [generateImage, imageTryBlock, ha, Bool.false_eq_true,
            if_false, if_neg hc, hv]
      | ok response =>
        cases hx : extractImage response.candidates with
        | none =>
          refine Or.inl ⟨⟨(classifyImageError "No image data found in response").1 ++
            ": " ++ (classifyImageError "No image data found in response").2,
            ?_⟩, ?_⟩ <;>
            simp only [generateImage, imageTryBlock, ha, Bool.false_eq_true,
              if_false, if_neg hc, hv, hx]
        | some found =>
          refine Or.inr ⟨response, found, rfl, hx, fun m => ?_, ?_⟩ <;>
            simp [generateImage, imageTryBlock, ha, Bool.false_eq_true,
              if_neg hc, hv, hx]

/-- C10: the image provider creates the output directory and writes the image
bytes only after an inline image payload has been extracted from the vendor
response: every failure (validation, vendor failure, or a response with no
inline image) leaves the file system untouched, and a success performs
exactly the conditional directory creation followed by the write of the
extracted payload. -/
theorem c10_write_only_after_extraction (options : ImageGenerateOptions)
    (vendor : ImageContents → ImageConfig → Except String GenResponse)
    (dirMissing : Bool) :
    (∀ m, (generateImage options vendor dirMissing).result = .error m →
      (generateImage options vendor dirMissing).actions = []) ∧
    ∀ r, (generateImage options vendor dirMissing).result = .ok r →
      ∃ response found,
        vendor (buildImageContents options.prompt options.referenceImages)
          (imageConfigOf options) = .ok response ∧
        extractImage response.candidates = some found ∧
        (generateImage options vendor dirMissing).actions =
          (if dirMissing then [FsAction.mkdirRecursive (dirnameOf options.outputPath)]
           else []) ++ [FsAction.writeFile options.outputPath found.1] := by
  rcases generateImage_split options vendor dirMissing with
    ⟨⟨m, hm⟩, hact⟩ | ⟨response, found, hv, hx, hne, hact⟩
  · refine ⟨fun _ _ => hact, fun r hr => ?_⟩
    rw [hm] at hr
    exact Except.noConfusion hr
  · exact ⟨fun m hm => absurd hm (hne m),
      fun r2 _ => ⟨response, found, hv, hx, hact⟩⟩

/-- Concrete options used by the C10 witness: an invalid aspect ratio. -/
def c10Options : ImageGenerateOptions :=
  { prompt := "p", outputPath := "/tmp/a/b.png", aspectRatio := some "7:5" }

/-- C10 witness: a concretely failing request (bad aspect ratio) issues no
file-system action. -/
theorem c10_write_only_after_extraction_witness :
    (generateImage c10Options (fun _ _ => .error "unreached") true).actions = [] := by
  have h := (c10_write_only_after_extraction c10Options
    (fun _ _ => .error "unreached") true).1
  exact h ("Invalid aspect ratio \"7:5\". Valid options: " ++
    String.intercalate ", " VALID_ASPECT_RATIOS) (by decide)

/-! ## C8 and C9: the research poll loop -/

/-- Iterations within budget that report in_progress are skipped by the loop. -/
theorem pollForCompletion_skips_in_progress (interactionId : String)
    (timeoutMs : Nat) :
    ∀ (pre : List (Nat × PollStep)),
      (∀ pe ∈ pre, pe.1 ≤ timeoutMs ∧ isInProgressReply pe.2 = true) →
      ∀ rest, pollForCompletion interactionId timeoutMs (pre ++ rest) =
        pollForCompletion interactionId timeoutMs rest := by
  intro pre
  induction pre with
  | nil => intro _ rest; rfl
  | cons pe t ih =>
    intro h rest
    obtain ⟨hle, hip⟩ := h pe (List.mem_cons_self pe t)
    rw [List.cons_append, pollForCompletion, if_neg (Nat.not_lt.mpr hle)]
    cases hs : pe.2 with
    | httpFailure sc body => rw [hs] at hip; exact Bool.noConfusion hip
    | reply r =>
      rw [hs] at hip
      cases hst : r.status with
      | inProgress =>
        dsimp only
        simp only [hst]
        exact ih (fun q hq => h q (List.mem_cons_of_mem _ hq)) rest
      | completed => simp [isInProgressReply, hst] at hip
      | failed => simp [isInProgressReply, hst] at hip

/-- C8: when the loop observes status completed within budget after
in-progress polls, the returned text is the blank-line join of the non-empty
output fragments, an empty aggregate being the no-output API_ERROR; in
particular two non-empty fragments come back joined by one blank line. -/
theorem c8_completed_aggregation (interactionId : String) (timeoutMs : Nat)
    (pre : List (Nat × PollStep)) (e : Nat) (resp : InteractionResponse)
    (rest : List (Nat × PollStep))
    (hpre : ∀ pe ∈ pre, pe.1 ≤ timeoutMs ∧ isInProgressReply pe.2 = true)
    (he : e ≤ timeoutMs) (hst : resp.status = .completed) :
    (pollForCompletion interactionId timeoutMs (pre ++ (e, .reply resp) :: rest) =
      if joinOutputs resp.outputs = "" then
        some (.error "API_ERROR: Research completed but no output text found")
      else some (.ok ⟨joinOutputs resp.outputs, .completed, "deep-research"⟩)) ∧
    ∀ t1 t2 : String, t1 ≠ "" → t2 ≠ "" →
      joinOutputs (some [some t1, some t2]) = t1 ++ "\n\n" ++ t2 := by
  constructor
  · rw [pollForCompletion_skips_in_progress interactionId timeoutMs pre hpre,
      pollForCompletion, if_neg (Nat.not_lt.mpr he)]
    dsimp only
    simp only [hst]
  · intro t1 t2 ht1 ht2
    have hfm : [some t1, some t2].filterMap id = [t1, t2] := by simp
    have hfl : [t1, t2].filter (fun s => s ≠ "") = [t1, t2] := by
      simp [List.filter, ht1, ht2]
    rw [joinOutputs, hfm, hfl]
    rfl

/-- An in-progress reply body. -/
def inProgressPoll : InteractionResponse := { status := .inProgress }

/-- The completed reply body used by the C8 witness. -/
def c8Completed : InteractionResponse :=
  { id := "task-1", status := .completed, outputs := some [some "Alpha", some "Beta"] }

/-- Concrete poll trace used by the C8 witness. -/
def c8Trace : List (Nat × PollStep) :=
  [(1000, .reply inProgressPoll), (11000, .reply inProgressPoll),
   (21000, .reply c8Completed)]

/-- C8 witness: the in_progress, in_progress, completed trace with fragments
Alpha and Beta yields them joined by a blank line. -/
theorem c8_completed_aggregation_witness :
    pollForCompletion "task-1" 1800000 c8Trace =
      some (.ok ⟨"Alpha\n\nBeta", .completed, "deep-research"⟩) := by
  have h := c8_completed_aggregation "task-1" 1800000
    [(1000, .reply inProgressPoll), (11000, .reply inProgressPoll)]
    21000 c8Completed [] (by decide) (by decide) rfl
  have hc : c8Trace =
      [(1000, PollStep.reply inProgressPoll), (11000, PollStep.reply inProgressPoll)] ++
      (21000, PollStep.reply c8Completed) :: [] := rfl
  rw [hc, h.1]
  decide

/-- C9: when the elapsed time observed at the top of an iteration exceeds the
budget before any terminal status was seen, the loop fails with the TIMEOUT
message, which embeds the rounded elapsed minutes and the interaction id. -/
theorem c9_budget_exhaustion_timeout (interactionId : String) (timeoutMs : Nat)
    (pre : List (Nat × PollStep)) (e : Nat) (step : PollStep)
    (rest : List (Nat × PollStep))
    (hpre : ∀ pe ∈ pre, pe.1 ≤ timeoutMs ∧ isInProgressReply pe.2 = true)
    (he : timeoutMs < e) :
    pollForCompletion interactionId timeoutMs (pre ++ (e, step) :: rest) =
      some (.error (researchTimeoutMessage interactionId e)) ∧
    strStartsWith (researchTimeoutMessage interactionId e) "TIMEOUT: " = true ∧
    strContains (researchTimeoutMessage interactionId e)
      (toString (jsRoundMinutes e) ++ " minutes") = true ∧
    strContains (researchTimeoutMessage interactionId e) interactionId = true := by
  have hsplit :
      (" minutes. The research may still be running - interaction ID: ").data =
        (" minutes").data ++
        (". The research may still be running - interaction ID: ").data := by decide
  refine ⟨?_, ?_, ?_, ?_⟩
  · rw [pollForCompletion_skips_in_progress interactionId timeoutMs pre hpre,
      pollForCompletion, if_pos he]
  · refine strStartsWith_intro ?_
    rw [researchTimeoutMessage]
    refine List.IsPrefix.trans (by decide :
      "TIMEOUT: ".data <+: "TIMEOUT: Research timed out after ".data) ?_
    simp only [String.data_append, List.append_assoc]
    exact List.prefix_append _ _
  · refine strContains_intro ?_
    refine ⟨"TIMEOUT: Research timed out after ".data,
      (". The research may still be running - interaction ID: ").data ++
        interactionId.data, ?_⟩
    simp only [researchTimeoutMessage, String.data_append, hsplit,
      List.append_assoc, List.cons_append, List.nil_append]
  · refine strContains_intro ?_
    refine ⟨("TIMEOUT: Research timed out after ").data ++
      (toString (jsRoundMinutes e)).data ++
      (" minutes. The research may still be running - interaction ID: ").data,
      [], ?_⟩
    simp only [researchTimeoutMessage, String.data_append, List.append_assoc,
      List.append_nil]

/-- Concrete poll trace used by the C9 witness. -/
def c9Trace : List (Nat × PollStep) :=
  [(1000, .reply inProgressPoll), (301000, .reply inProgressPoll)]

/-- C9 witness: a concrete over-budget iteration after one in-progress poll. -/
theorem c9_budget_exhaustion_timeout_witness :
    pollForCompletion "task-9" 300000 c9Trace =
      some (.error ("TIMEOUT: Research timed out after 5 minutes. " ++
        "The research may still be running - interaction ID: task-9")) := by
  have h := c9_budget_exhaustion_timeout "task-9" 300000
    [(1000, .reply inProgressPoll)] 301000
    (.reply inProgressPoll) [] (by decide) (by decide)
  have hl : c9Trace = [(1000, PollStep.reply inProgressPoll)] ++
      (301000, PollStep.reply inProgressPoll) :: [] := rfl
  rw [hl, h.1]
  decide

/-! ## C3: shape of propagated failure messages -/

theorem strStartsWith_append_left {a pre : String} (b : String)
    (h : strStartsWith a pre = true) : strStartsWith (a ++ b) pre = true := by
  refine strStartsWith_intro ?_
  rw [String.data_append]
  have hpre := List.isPrefixOf_iff_prefix.mp h
  exact hpre.trans (List.prefix_append _ _)

theorem strStartsWith_data_congr {pre pre' : String} (s : String)
    (h : pre.data = pre'.data) : strStartsWith s pre = strStartsWith s pre' := by
  rw [strStartsWith, strStartsWith, h]

theorem classifyTextError_token (m : String) :
    (classifyTextError m).1 ∈ errorCategoryTokens := by
  rw [classifyTextError]
  split_ifs <;> dsimp only <;> decide

theorem classifyImageError_token (m : String) :
    (classifyImageError m).1 ∈ errorCategoryTokens := by
  rw [classifyImageError]
  split_ifs <;> dsimp only <;> decide

theorem textTryBlock_error_shape (model : SupportedTextModel)
    (vendorResult : Except String GenResponse) (m : String)
    (h : textTryBlock model vendorResult = .error m) :
    ∃ cat ∈ errorCategoryTokens, strStartsWith m (cat ++ ": ") = true := by
  cases vendorResult with
  | error e =>
    simp only [textTryBlock] at h
    refine ⟨(classifyTextError e).1, classifyTextError_token e, ?_⟩
    rw [← Except.error.inj h]
    exact strStartsWith_append _ _
  | ok response =>
    simp only [textTryBlock] at h
    exact Except.noConfusion h

theorem imageTryBlock_error_shape (outputPath : String)
    (model : SupportedImageModel) (dirMissing : Bool)
    (vendorResult : Except String GenResponse) (m : String)
    (h : (imageTryBlock outputPath model dirMissing vendorResult).1 = .error m) :
    ∃ cat ∈ errorCategoryTokens, strStartsWith m (cat ++ ": ") = true := by
  cases vendorResult with
  | error e =>
    simp only [imageTryBlock] at h
    refine ⟨(classifyImageError e).1, classifyImageError_token e, ?_⟩
    rw [← Except.error.inj h]
    exact strStartsWith_append _ _
  | ok response =>
    cases hx : extractImage response.candidates with
    | none =>
      simp only [imageTryBlock, hx] at h
      refine ⟨(classifyImageError "No image data found in response").1,
        classifyImageError_token _, ?_⟩
      rw [← Except.error.inj h]
      exact strStartsWith_append _ _
    | some found =>
      simp only [imageTryBlock, hx] at h
      exact Except.noConfusion h

theorem getMimeType_error_shape (f m : String) (h : getMimeType f = .error m) :
    strStartsWith m "Unsupported file type \"" = true := by
  simp only [getMimeType] at h
  cases hl : SUPPORTED_MIME_TYPES.lookup (jsToLower (extname f)) with
  | some mt => rw [hl] at h; exact Except.noConfusion h
  | none =>
    rw [hl] at h
    rw [← Except.error.inj h]
    exact strStartsWith_append_left _ (strStartsWith_append_left _
      (strStartsWith_append _ _))

theorem resolveFiles_error_shape (fs : String → Option String) :
    ∀ (files : List String) (m : String), (resolveFiles fs files).1 = .error m →
      strStartsWith m "File not found: " = true ∨
      strStartsWith m "Unsupported file type \"" = true := by
  intro files
  induction files with
  | nil => intro m h; exact Except.noConfusion h
  | cons f rest ih =>
    intro m h
    simp only [resolveFiles] at h
    cases hf : fs f with
    | none =>
      rw [hf] at h
      left
      rw [← Except.error.inj h]
      exact strStartsWith_append _ _
    | some c =>
      rw [hf] at h
      cases hm : getMimeType f with
      | error e =>
        rw [hm] at h
        right
        rw [← Except.error.inj h]
        exact getMimeType_error_shape f e hm
      | ok mt =>
        rw [hm] at h
        cases hr : (resolveFiles fs rest).1 with
        | error e2 =>
          rw [hr] at h
          simp only [Except.map] at h
          rcases ih e2 hr with h1 | h1
          · left; rw [← Except.error.inj h]; exact h1
          · right; rw [← Except.error.inj h]; exact h1
        | ok items =>
          rw [hr] at h
          simp only [Except.map] at h
          exact Except.noConfusion h

theorem generateText_error_shape (options : TextGenerateOptions)
    (fs : String → Option String)
    (vendor : List ContentItem → TextConfig → Except String GenResponse)
    (m : String) (h : (generateText options fs vendor).result = .error m) :
    (∃ cat ∈ errorCategoryTokens, strStartsWith m (cat ++ ": ") = true) ∨
    strStartsWith m "File not found: " = true ∨
    strStartsWith m "Unsupported file type \"" = true := by
  cases hv : validateThinkingLevel (options.model.getD DEFAULT_TEXT_MODEL)
      (options.thinkingLevel.getD .high) with
  | some v =>
    simp only [generateText, hv] at h
    left
    refine ⟨"VALIDATION_ERROR", by decide, ?_⟩
    rw [← Except.error.inj h]
    rw [strStartsWith_data_congr _ (by decide :
      ("VALIDATION_ERROR" ++ ": ").data = "VALIDATION_ERROR: ".data)]
    exact strStartsWith_append _ _
  | none =>
    cases hr : (resolveFiles fs options.files).1 with
    | error e =>
      simp only [generateText, hv, hr] at h
      rcases resolveFiles_error_shape fs options.files e hr with h1 | h1
      · exact Or.inr (Or.inl (by rw [← Except.error.inj h]; exact h1))
      · exact Or.inr (Or.inr (by rw [← Except.error.inj h]; exact h1))
    | ok items =>
      simp only [generateText, hv, hr] at h
      exact Or.inl (textTryBlock_error_shape _ _ _ h)

theorem generateImage_error_shape (options : ImageGenerateOptions)
    (vendor : ImageContents → ImageConfig → Except String GenResponse)
    (dirMissing : Bool) (m : String)
    (h : (generateImage options vendor dirMissing).result = .error m) :
    (∃ cat ∈ errorCategoryTokens, strStartsWith m (cat ++ ": ") = true) ∨
    strStartsWith m "Invalid aspect ratio \"" = true ∨
    strStartsWith m "Maximum " = true := by
  by_cases ha : aspectRatioInvalid options.aspectRatio = true
  · simp only [generateImage, ha, if_true] at h
    refine Or.inr (Or.inl ?_)
    rw [← Except.error.inj h]
    exact strStartsWith_append_left _ (strStartsWith_append_left _
      (strStartsWith_append _ _))
  · rw [Bool.not_eq_true] at ha
    by_cases hc : options.referenceImages.length >
        MAX_REFERENCE_IMAGES (options.model.getD .nanoBanana)
    · simp only [generateImage, ha, Bool.false_eq_true, if_false, if_pos hc] at h
      refine Or.inr (Or.inr ?_)
      rw [← Except.error.inj h]
      exact strStartsWith_append_left _ (strStartsWith_append_left _
        (strStartsWith_append _ _))
    · simp only [generateImage, ha, Bool.false_eq_true, if_false, if_neg hc] at h
      exact Or.inl (imageTryBlock_error_shape _ _ _ _ _ h)

theorem pollForCompletion_error_shape (interactionId : String) (timeoutMs : Nat) :
    ∀ (trace : List (Nat × PollStep)) (m : String),
      pollForCompletion interactionId timeoutMs trace = some (.error m) →
      ∃ cat ∈ errorCategoryTokens, strStartsWith m (cat ++ ": ") = true := by
  intro trace
  induction trace with
  | nil => intro m h; exact Option.noConfusion h
  | cons pe rest ih =>
    intro m h
    rw [pollForCompletion] at h
    by_cases he : pe.1 > timeoutMs
    · rw [if_pos he] at h
      refine ⟨"TIMEOUT", by decide, ?_⟩
      rw [← Except.error.inj (Option.some.inj h)]
      rw [strStartsWith_data_congr _ (by decide :
        ("TIMEOUT" ++ ": ").data = "TIMEOUT: ".data)]
      rw [researchTimeoutMessage]
      exact strStartsWith_append_left _ (strStartsWith_append_left _
        (strStartsWith_append_left _ (by decide)))
    · rw [if_neg he] at h
      cases hs : pe.2 with
      | httpFailure sc body =>
        rw [hs] at h
        dsimp only at h
        refine ⟨"API_ERROR", by decide, ?_⟩
        rw [← Except.error.inj (Option.some.inj h)]
        rw [strStartsWith_data_congr _ (by decide :
          ("API_ERROR" ++ ": ").data = "API_ERROR: ".data)]
        exact strStartsWith_append_left _ (strStartsWith_append_left _
          (strStartsWith_append_left _ (by decide)))
      | reply r =>
        rw [hs] at h
        dsimp only at h
        cases hst : r.status with
        | inProgress =>
          rw [hst] at h
          exact ih m h
        | completed =>
          rw [hst] at h
          dsimp only at h
          by_cases hj : joinOutputs r.outputs = ""
          · rw [if_pos hj] at h
            refine ⟨"API_ERROR", by decide, ?_⟩
            rw [← Except.error.inj (Option.some.inj h)]
            decide
          · rw [if_neg hj] at h
            exact Except.noConfusion (Option.some.inj h)
        | failed =>
          rw [hst] at h
          dsimp only at h
          refine ⟨"RESEARCH_FAILED", by decide, ?_⟩
          rw [← Except.error.inj (Option.some.inj h)]
          rw [strStartsWith_data_congr _ (by decide :
            ("RESEARCH_FAILED" ++ ": ").data = "RESEARCH_FAILED: ".data)]
          exact strStartsWith_append _ _

theorem handleGenerateText_wrap (prompt : String)
    (providerOutcome : Except String GenerateResult)
    (h : (handleGenerateText prompt providerOutcome).isError = true) :
    strStartsWith (handleGenerateText prompt providerOutcome).text
      "Error: " = true := by
  by_cases hp : (prompt = "" || jsTrim prompt = "") = true
  · simp only [handleGenerateText, hp, if_true]
    decide
  · cases providerOutcome with
    | ok r =>
      rw [handleGenerateText, if_neg hp] at h
      exact Bool.noConfusion h
    | error e =>
      simp only [handleGenerateText, if_neg hp]
      exact strStartsWith_append _ _

/-- C3 counterexample: the empty-prompt pre-flight rejection of the
generate_text tool branch returns "Error: Prompt cannot be empty", which does
not begin with any of the closed error-category tokens followed by a colon. -/
theorem c3_empty_prompt_untagged :
    handleGenerateText "" (.error "unused") =
      ⟨"Error: Prompt cannot be empty", true⟩ ∧
    ∀ cat ∈ errorCategoryTokens,
      strStartsWith "Error: Prompt cannot be empty" (cat ++ ":") = false := by
  exact ⟨by decide, by decide⟩

/-- C3 amended: failures raised inside the provider try blocks (and the
thinking-level validation failure) are category-prefixed, and every poll-loop
failure is category-prefixed; but the other local pre-flight rejections
propagate bare messages ("File not found: ", "Unsupported file type \"",
"Invalid aspect ratio \"", "Maximum "), and at the tool boundary every failure
is additionally wrapped as "Error: <message>" rather than starting with a
category token. -/
theorem c3_error_message_tagging :
    (∀ (options : TextGenerateOptions) (fs : String → Option String)
      (vendor : List ContentItem → TextConfig → Except String GenResponse)
      (m : String), (generateText options fs vendor).result = .error m →
      (∃ cat ∈ errorCategoryTokens, strStartsWith m (cat ++ ": ") = true) ∨
      strStartsWith m "File not found: " = true ∨
      strStartsWith m "Unsupported file type \"" = true) ∧
    (∀ (options : ImageGenerateOptions)
      (vendor : ImageContents → ImageConfig → Except String GenResponse)
      (dirMissing : Bool) (m : String),
      (generateImage options vendor dirMissing).result = .error m →
      (∃ cat ∈ errorCategoryTokens, strStartsWith m (cat ++ ": ") = true) ∨
      strStartsWith m "Invalid aspect ratio \"" = true ∨
      strStartsWith m "Maximum " = true) ∧
    (∀ (interactionId : String) (timeoutMs : Nat)
      (trace : List (Nat × PollStep)) (m : String),
      pollForCompletion interactionId timeoutMs trace = some (.error m) →
      ∃ cat ∈ errorCategoryTokens, strStartsWith m (cat ++ ": ") = true) ∧
    ∀ (prompt : String) (providerOutcome : Except String GenerateResult),
      (handleGenerateText prompt providerOutcome).isError = true →
      strStartsWith (handleGenerateText prompt providerOutcome).text
        "Error: " = true :=
  ⟨generateText_error_shape, generateImage_error_shape,
   pollForCompletion_error_shape, handleGenerateText_wrap⟩

/-- C3 witness: the boundary wrap applied to the concrete empty prompt. -/
theorem c3_error_message_tagging_witness :
    strStartsWith (handleGenerateText "" (.error "unused")).text "Error: " = true :=
  c3_error_message_tagging.2.2.2 "" (.error "unused") (by decide)

end McpGemini
